import Mathlib

/-!
Verification development for a small three-endpoint HTTP service
(`src/main.py`). The service exposes `GET /` (a status record with the
current time), `GET /info` (a memoized `PersonalInfo` record) and
`GET /study` (a freshly constructed `StudyInfo` record).

Time is modelled as `Nat` (a reading of the wall clock). A process is
modelled by `ProcState`: the clock value observed when the module was
imported (which is when the `last_updated` field default expression
`datetime.now()` is evaluated, once, at class-definition time) and the
`functools.lru_cache` slot of `get_personal_info`. Handlers are pure
functions threaded through this state; `run` processes a list of
requests.
-/

/-- `class PersonalInfo(BaseModel)` from `src/main.py`:
`name`, `bio`, `current_status` are strings, `last_updated` a datetime. -/
structure PersonalInfo where
  name : String
  bio : String
  current_status : String
  last_updated : Nat
deriving DecidableEq, Repr

/-- `class StudyInfo(BaseModel)` from `src/main.py`: `institution`,
`course` strings, `year` an integer, `achievements` an optional mapping
from string to string (modelled as an association list in insertion
order). -/
structure StudyInfo where
  institution : String
  course : String
  year : Int
  achievements : Option (List (String × String))
deriving DecidableEq, Repr

/-- The record returned by the root endpoint (`{"status": ...,
"timestamp": ...}` in `src/main.py`). -/
structure StatusReply where
  status : String
  timestamp : Nat
deriving DecidableEq, Repr

/-- The declared default of the `achievements` field of `StudyInfo`
(`achievements: Optional[Dict[str, str]] = None` in `src/main.py`). -/
def StudyInfo.achievementsDefault : Option (List (String × String)) := none

/-- Constructing a `PersonalInfo` in Python. The field default
`last_updated: datetime = datetime.now()` is evaluated once, when the
class body runs at module import; a construction that omits
`last_updated` therefore receives that fixed class-definition-time
value `classDefaultLastUpdated`, not the clock reading
`constructionTime` at which the constructor itself runs. -/
def PersonalInfo.construct (classDefaultLastUpdated : Nat)
    (constructionTime : Nat) (name bio current_status : String)
    (last_updated : Option Nat) : PersonalInfo :=
  { name := name
    bio := bio
    current_status := current_status
    last_updated := last_updated.getD classDefaultLastUpdated }

/-- State of one process run: the clock value at module import (when the
`PersonalInfo.last_updated` default expression was evaluated) and the
`functools.lru_cache` slot of `get_personal_info` (empty until the first
call). -/
structure ProcState where
  importTime : Nat
  cache : Option PersonalInfo
deriving DecidableEq, Repr

/-- A freshly started process: the cache of `get_personal_info` is
empty. -/
def procInit (t : Nat) : ProcState := { importTime := t, cache := none }

/-- `get_personal_info` from `src/main.py`: wrapped in `@lru_cache()`, a
zero-argument function, so the cache holds at most one value. On a miss
it constructs `PersonalInfo(name="Your Name", bio="Your Bio",
current_status="Available")` — with no `last_updated` argument — and
stores it; on a hit it returns the stored record unchanged. `now` is the
clock reading at the call. -/
def get_personal_info (now : Nat) (s : ProcState) :
    PersonalInfo × ProcState :=
  match s.cache with
  | some v => (v, s)
  | none =>
      let v := PersonalInfo.construct s.importTime now
        "Your Name" "Your Bio" "Available" none
      (v, { s with cache := some v })

/-- Handler of `GET /info` in `src/main.py`: returns
`get_personal_info()`. -/
def get_info (now : Nat) (s : ProcState) : PersonalInfo × ProcState :=
  get_personal_info now s

/-- Handler of `GET /` in `src/main.py`: returns
`{"status": "online", "timestamp": datetime.now()}`; `now` is the value
`datetime.now()` evaluates to during the call. -/
def root (now : Nat) : StatusReply :=
  { status := "online", timestamp := now }

/-- The literal achievements mapping built by the `/study` handler. -/
def studyAchievements : List (String × String) :=
  [("2024", "Dean\x27s List"), ("2023", "Best Project Award")]

/-- Handler of `GET /study` in `src/main.py`: constructs and returns a
fresh `StudyInfo` with literal field values on every call; it reads and
writes no process state. -/
def get_study_info : StudyInfo :=
  { institution := "Your University"
    course := "Your Course"
    year := 2024
    achievements := some studyAchievements }

/-- A request to one of the three registered routes. The clock readings
taken during the handling of the request are carried on the request. -/
inductive Req where
  | root (now : Nat) : Req
  | info (now : Nat) : Req
  | study : Req
deriving DecidableEq, Repr

/-- A response body produced by one of the three handlers. -/
inductive Resp where
  | statusReply (r : StatusReply) : Resp
  | personal (p : PersonalInfo) : Resp
  | study (r : StudyInfo) : Resp
deriving DecidableEq, Repr

/-- Dispatch one request to its handler, threading the process state. -/
def handle (s : ProcState) : Req → Resp × ProcState
  | .root now => (.statusReply (root now), s)
  | .info now =>
      let out := get_info now s
      (.personal out.1, out.2)
  | .study => (.study get_study_info, s)

/-- Handle a list of requests in order, collecting the responses. -/
def run (s : ProcState) : List Req → List Resp × ProcState
  | [] => ([], s)
  | r :: rs =>
      let out := handle s r
      let rest := run out.2 rs
      (out.1 :: rest.1, rest.2)

/-- The `PersonalInfo` bodies among a run's responses (the values
returned by `GET /info`). -/
def infoOutputs (s : ProcState) (reqs : List Req) : List PersonalInfo :=
  (run s reqs).1.filterMap fun r =>
    match r with
    | .personal p => some p
    | _ => none

/-- The `StudyInfo` bodies among a run's responses (the values returned
by `GET /study`). -/
def studyOutputs (s : ProcState) (reqs : List Req) : List StudyInfo :=
  (run s reqs).1.filterMap fun r =>
    match r with
    | .study x => some x
    | _ => none

/-- The `PersonalInfo` value that `get_personal_info` constructs on its
first call in a process whose import-time clock reading was `t`. -/
def defaultPersonal (t : Nat) : PersonalInfo :=
  { name := "Your Name"
    bio := "Your Bio"
    current_status := "Available"
    last_updated := t }

/-- A JSON value, as much of it as the three response bodies need. -/
inductive Json where
  | null : Json
  | str (s : String) : Json
  | num (n : Int) : Json
  | obj (fields : List (String × Json)) : Json

/-- Whether a JSON value is the null literal. -/
def Json.isNull : Json → Bool
  | .null => true
  | _ => false

/-- The keys of a JSON object (empty for non-objects). -/
def Json.keys : Json → List String
  | .obj fs => fs.map Prod.fst
  | _ => []

/-- `true` when the value is an object each of whose fields is either
non-null or has a key in `allowed`. -/
def objNonNullExcept (allowed : List String) : Json → Bool
  | .obj fs => fs.all fun kv => allowed.contains kv.1 || !kv.2.isNull
  | _ => false

/-- Serialization of a `PersonalInfo` response body. -/
def PersonalInfo.toJson (p : PersonalInfo) : Json :=
  .obj [("name", .str p.name), ("bio", .str p.bio),
        ("current_status", .str p.current_status),
        ("last_updated", .num p.last_updated)]

/-- Serialization of a `StudyInfo` response body; a `None` achievements
value serializes to JSON null. -/
def StudyInfo.toJson (x : StudyInfo) : Json :=
  .obj [("institution", .str x.institution), ("course", .str x.course),
        ("year", .num x.year),
        ("achievements",
          match x.achievements with
          | none => .null
          | some m => .obj (m.map fun kv => (kv.1, .str kv.2)))]

/-- Serialization of the root endpoint's response body. -/
def StatusReply.toJson (r : StatusReply) : Json :=
  .obj [("status", .str r.status), ("timestamp", .num r.timestamp)]

/-- Serialization of any response body. -/
def respToJson : Resp → Json
  | .statusReply r => r.toJson
  | .personal p => p.toJson
  | .study x => x.toJson

/-- The keys each response body serializes with. -/
def expectedKeys : Resp → List String
  | .statusReply _ => ["status", "timestamp"]
  | .personal _ => ["name", "bio", "current_status", "last_updated"]
  | .study _ => ["institution", "course", "year", "achievements"]

/-- The route table registered on the app in `src/main.py`: three GET
routes and nothing else. -/
def routeTable : List (String × String) :=
  [("GET", "/"), ("GET", "/info"), ("GET", "/study")]

/-- Modelled from the spec: the HTTP framework's router (the framework
itself is an external dependency, not part of `src/`). Per the spec, a
request matching a registered method-and-path pair reaches its handler
(a success status); an unsupported method on a registered path yields a
standard method-not-allowed response (405); an unknown path yields a
standard not-found response (404). No other failure arises from
application logic. -/
def dispatchStatus (method path : String) : Nat :=
  if routeTable.contains (method, path) then 200
  else if routeTable.any fun mp => mp.2 == path then 405
  else 404

/-- Invariant of a process run started at import time `t`: the import
time is `t` and the `get_personal_info` cache is either still empty or
holds exactly the record the first call constructs. -/
def goodState (t : Nat) (s : ProcState) : Prop :=
  s.importTime = t ∧ (s.cache = none ∨ s.cache = some (defaultPersonal t))

theorem goodState_init (t : Nat) : goodState t (procInit t) :=
  ⟨rfl, Or.inl rfl⟩

theorem get_personal_info_of_good {t : Nat} {s : ProcState} (now : Nat)
    (h : goodState t s) :
    (get_personal_info now s).1 = defaultPersonal t ∧
      goodState t (get_personal_info now s).2 := by
  obtain ⟨ht, hc⟩ := h
  rcases hc with hc | hc <;> subst ht <;>
    simp [get_personal_info, hc, PersonalInfo.construct, defaultPersonal,
      goodState]

theorem handle_good {t : Nat} {s : ProcState} (h : goodState t s)
    (r : Req) : goodState t (handle s r).2 := by
  cases r with
  | root now => exact h
  | info now => exact (get_personal_info_of_good now h).2
  | study => exact h

theorem infoOutputs_cons (s : ProcState) (r : Req) (rs : List Req) :
    infoOutputs s (r :: rs) =
      (match (handle s r).1 with
        | .personal p => p :: infoOutputs (handle s r).2 rs
        | _ => infoOutputs (handle s r).2 rs) := by
  simp only [infoOutputs, run, List.filterMap_cons]
  cases (handle s r).1 <;> rfl

theorem studyOutputs_cons (s : ProcState) (r : Req) (rs : List Req) :
    studyOutputs s (r :: rs) =
      (match (handle s r).1 with
        | .study x => x :: studyOutputs (handle s r).2 rs
        | _ => studyOutputs (handle s r).2 rs) := by
  simp only [studyOutputs, run, List.filterMap_cons]
  cases (handle s r).1 <;> rfl

theorem infoOutputs_eq_default {t : Nat} :
    ∀ (reqs : List Req) (s : ProcState), goodState t s →
      ∀ p ∈ infoOutputs s reqs, p = defaultPersonal t := by
  intro reqs
  induction reqs with
  | nil => intro s _ p hp; simp [infoOutputs, run] at hp
  | cons r rs ih =>
      intro s h p hp
      rw [infoOutputs_cons] at hp
      cases r with
      | root now =>
          exact ih _ (handle_good h (.root now)) p hp
      | study =>
          exact ih _ (handle_good h .study) p hp
      | info now =>
          obtain ⟨hv, hg⟩ := get_personal_info_of_good now h
          simp only [handle, get_info] at hp
          rcases List.mem_cons.mp hp with hp | hp
          · exact hp.trans hv
          · exact ih _ (handle_good h (.info now)) p hp

theorem studyOutputs_eq_const :
    ∀ (reqs : List Req) (s : ProcState),
      ∀ x ∈ studyOutputs s reqs, x = get_study_info := by
  intro reqs
  induction reqs with
  | nil => intro s x hx; simp [studyOutputs, run] at hx
  | cons r rs ih =>
      intro s x hx
      rw [studyOutputs_cons] at hx
      cases r with
      | root now => exact ih _ x hx
      | info now => exact ih _ x hx
      | study =>
          simp only [handle] at hx
          rcases List.mem_cons.mp hx with hx | hx
          · exact hx
          · exact ih _ x hx

theorem respToJson_keys_nonnull (r : Resp) :
    (respToJson r).keys = expectedKeys r ∧
      objNonNullExcept ["achievements"] (respToJson r) = true := by
  cases r with
  | statusReply x =>
      simp [respToJson, StatusReply.toJson, Json.keys, expectedKeys,
        objNonNullExcept, Json.isNull]
  | personal p =>
      simp [respToJson, PersonalInfo.toJson, Json.keys, expectedKeys,
        objNonNullExcept, Json.isNull]
  | study x =>
      cases h : x.achievements <;>
        simp [respToJson, StudyInfo.toJson, h, Json.keys, expectedKeys,
          objNonNullExcept, Json.isNull]

/-- C1: within one process run (started with an empty memoization
cache), every two `PersonalInfo` bodies returned by `GET /info` are
equal — in particular their `last_updated` values agree — because the
memoized `get_personal_info` yields the same record on every call. -/
theorem C1_info_responses_equal (t : Nat) (reqs : List Req)
    (p q : PersonalInfo)
    (hp : p ∈ infoOutputs (procInit t) reqs)
    (hq : q ∈ infoOutputs (procInit t) reqs) : p = q := by
  have h1 := infoOutputs_eq_default reqs (procInit t) (goodState_init t) p hp
  have h2 := infoOutputs_eq_default reqs (procInit t) (goodState_init t) q hq
  exact h1.trans h2.symm

theorem C1_info_responses_equal_witness :
    ({ name := "Your Name", bio := "Your Bio",
       current_status := "Available", last_updated := 7 } : PersonalInfo) =
      { name := "Your Name", bio := "Your Bio",
        current_status := "Available", last_updated := 7 } :=
  C1_info_responses_equal 7 [Req.info 9, Req.root 10, Req.info 11] _ _
    (by decide) (by decide)

/-- C2 counterexample: a `PersonalInfo` constructed without an explicit
`last_updated`, in a process whose class-definition-time clock reading
was 0 and whose constructor runs at clock reading 5, carries
`last_updated = 0`, not the construction time 5: the pydantic field
default `datetime.now()` is evaluated once, at class-definition time,
not when the constructor runs. -/
theorem C2_counterexample :
    (PersonalInfo.construct 0 5 "Your Name" "Your Bio" "Available"
        none).last_updated ≠ 5 := by
  decide

/-- C2 (amended): when a `PersonalInfo` record is constructed without an
explicit `last_updated` argument, its `last_updated` field equals the
single class-definition-time (module import) timestamp — the same fixed
instant for every such construction, regardless of when the constructor
itself runs. -/
theorem C2_default_is_class_definition_time
    (classT constructionT constructionT2 : Nat)
    (n b c n2 b2 c2 : String) :
    (PersonalInfo.construct classT constructionT n b c
        none).last_updated = classT ∧
      (PersonalInfo.construct classT constructionT n b c
          none).last_updated =
        (PersonalInfo.construct classT constructionT2 n2 b2 c2
            none).last_updated :=
  ⟨rfl, rfl⟩

/-- C3: every call to `GET /study` returns a `StudyInfo` with
institution `"Your University"`, course `"Your Course"`, year `2024`
and exactly the two-entry achievements mapping, freshly constructed on
each request with no caching (the process state is untouched). -/
theorem C3_study_response (s : ProcState) :
    handle s .study =
      (.study { institution := "Your University",
                course := "Your Course",
                year := 2024,
                achievements :=
                  some [("2024", "Dean\x27s List"),
                        ("2023", "Best Project Award")] }, s) :=
  rfl

/-- C4: within one process run (started with an empty memoization
cache), every `PersonalInfo` body returned by `GET /info` has name
`"Your Name"`, bio `"Your Bio"` and current status `"Available"`. -/
theorem C4_info_fields (t : Nat) (reqs : List Req) (p : PersonalInfo)
    (hp : p ∈ infoOutputs (procInit t) reqs) :
    p.name = "Your Name" ∧ p.bio = "Your Bio" ∧
      p.current_status = "Available" := by
  have h := infoOutputs_eq_default reqs (procInit t) (goodState_init t) p hp
  subst h
  exact ⟨rfl, rfl, rfl⟩

theorem C4_info_fields_witness :
    (defaultPersonal 7).name = "Your Name" ∧
      (defaultPersonal 7).bio = "Your Bio" ∧
      (defaultPersonal 7).current_status = "Available" :=
  C4_info_fields 7 [Req.root 8, Req.info 9] (defaultPersonal 7)
    (by decide)

/-- C5: every call to `GET /` succeeds — the handler is a total function
with no error branch — and returns a record whose `status` field is the
literal `"online"` and whose `timestamp` field is the clock reading
taken during the request. -/
theorem C5_root_response (now : Nat) (s : ProcState) :
    handle s (.root now) =
      (.statusReply { status := "online", timestamp := now }, s) :=
  rfl

/-- C6: every response body produced by any of the three endpoints in
any run serializes with all its fields present, and none of them null,
with the sole exception of the `achievements` field of `StudyInfo`,
which is the only field permitted to be null. -/
theorem C6_fields_present_nonnull (s : ProcState) (reqs : List Req)
    (r : Resp) (hr : r ∈ (run s reqs).1) :
    (respToJson r).keys = expectedKeys r ∧
      objNonNullExcept ["achievements"] (respToJson r) = true :=
  respToJson_keys_nonnull r

theorem C6_fields_present_nonnull_witness :
    (respToJson (Resp.statusReply ⟨"online", 3⟩)).keys =
        expectedKeys (Resp.statusReply ⟨"online", 3⟩) ∧
      objNonNullExcept ["achievements"]
        (respToJson (Resp.statusReply ⟨"online", 3⟩)) = true :=
  C6_fields_present_nonnull (procInit 2) [Req.root 3] _ (by decide)

/-- C7: requests outside the three registered routes fail in the
framework, not in application logic: an unknown path such as
`GET /nope` yields a not-found status (404), a wrong method on a
registered path such as `POST /info` yields a method-not-allowed status
(405), and no request can produce any status other than success (200),
not-found (404) or method-not-allowed (405) — there is no
domain-specific error. -/
theorem C7_routing :
    dispatchStatus "GET" "/nope" = 404 ∧
      dispatchStatus "POST" "/info" = 405 ∧
      ∀ m p, dispatchStatus m p = 200 ∨ dispatchStatus m p = 404 ∨
        dispatchStatus m p = 405 := by
  refine ⟨by decide, by decide, ?_⟩
  intro m p
  unfold dispatchStatus
  split
  · exact Or.inl rfl
  · split
    · exact Or.inr (Or.inr rfl)
    · exact Or.inr (Or.inl rfl)

/-- C8: the timestamp returned by `GET /` is no older than the moment
the request was made: if the request begins at clock reading `t0` and
the handler's `datetime.now()` call reads `now` (the clock being
monotone, `t0 ≤ now`), the returned timestamp is at least `t0`. -/
theorem C8_root_timestamp_fresh (t0 now : Nat) (h : t0 ≤ now) :
    t0 ≤ (root now).timestamp :=
  h

theorem C8_root_timestamp_fresh_witness : 3 ≤ (root 5).timestamp :=
  C8_root_timestamp_fresh 3 5 (by decide)

/-- C9: no handler mutates existing state: handling any request leaves
the import-time value unchanged, leaves an already-populated
memoization cache exactly as it was (the stored record is never
replaced or modified), and the only possible state write is the single
lazy initialization of the empty cache to the deterministic first-call
record. -/
theorem C9_frame (s : ProcState) (r : Req) :
    (handle s r).2.importTime = s.importTime ∧
      (∀ v, s.cache = some v → (handle s r).2.cache = some v) ∧
      (s.cache = none →
        (handle s r).2.cache = none ∨
          (handle s r).2.cache = some (defaultPersonal s.importTime)) := by
  cases r with
  | root now => exact ⟨rfl, fun v hv => hv, fun h => Or.inl h⟩
  | study => exact ⟨rfl, fun v hv => hv, fun h => Or.inl h⟩
  | info now =>
      refine ⟨?_, ?_, ?_⟩
      · simp only [handle, get_info, get_personal_info]
        cases h : s.cache <;> rfl
      · intro v hv
        simp only [handle, get_info, get_personal_info, hv]
      · intro h
        simp only [handle, get_info, get_personal_info, h]
        exact Or.inr rfl

theorem C9_frame_witness :
    (handle { importTime := 4, cache := some (defaultPersonal 4) }
        (Req.info 9)).2.cache = some (defaultPersonal 4) :=
  (C9_frame { importTime := 4, cache := some (defaultPersonal 4) }
      (Req.info 9)).2.1 (defaultPersonal 4) rfl

/-- C10: although `achievements` is declared optional with default
`None`, every `StudyInfo` body actually produced by `GET /study` in any
run carries the non-null two-entry mapping: the `None` branch of the
optional type is never observed at the public interface. -/
theorem C10_achievements_never_none (s : ProcState) (reqs : List Req)
    (x : StudyInfo) (hx : x ∈ studyOutputs s reqs) :
    StudyInfo.achievementsDefault = none ∧
      x.achievements = some studyAchievements ∧
      x.achievements ≠ none := by
  have h := studyOutputs_eq_const reqs s x hx
  subst h
  exact ⟨rfl, rfl, by simp [get_study_info]⟩

theorem C10_achievements_never_none_witness :
    StudyInfo.achievementsDefault = none ∧
      get_study_info.achievements = some studyAchievements ∧
      get_study_info.achievements ≠ none :=
  C10_achievements_never_none (procInit 0) [Req.study]
    get_study_info (by decide)
